import Mathlib

/-
Verification of the tire-impression prediction pipeline
(src/tire identify/tire-identify-web/src/app/api/predict/route.ts).

The embedding models JS number arithmetic over the exact reals ℝ; byte
buffers become lists of naturals, intensity buffers become lists of reals,
and the edge output array becomes a function from pixel coordinates to ℤ.
A separate NaN-tracking model (JSR) is used where the distinction between
a real result and an IEEE NaN is the point of the claim.
-/

namespace TirePredict

/-- Record type of one catalog entry, from the `VehicleInfo` type of the
route (fields make, model, class, tire; `class` is a reserved word in Lean,
so the field is named `cls`). -/
structure VehicleInfo where
  make : String
  model : String
  cls : String
  tire : String
deriving DecidableEq, Repr

/-- The fixed vehicle catalog `VEHICLES` (route.ts lines 12–18). -/
def VEHICLES : List VehicleInfo :=
  [⟨"Toyota", "Camry", "Sedan", "215/55R17"⟩,
   ⟨"Honda", "Civic", "Compact", "215/50R17"⟩,
   ⟨"Ford", "F-150", "Pickup", "275/65R18"⟩,
   ⟨"BMW", "3 Series", "Sports Sedan", "225/45R18"⟩,
   ⟨"Audi", "Q5", "SUV", "235/55R19"⟩]

/-- Server-side `computeGrayscale` (route.ts lines 20–29).  The input
`Uint8Array` is a list of byte values; the output `Float32Array` of length
`data.length / 4` is a list of reals.  Entry `g` reads the pixel's first
three channels `data[4g]`, `data[4g+1]`, `data[4g+2]` (named r, b, gb in
the source) and ignores the fourth (alpha).  Out-of-range reads default to
0; they never occur for `g < data.length / 4`. -/
noncomputable def computeGrayscale (data : List ℕ) : List ℝ :=
  (List.range (data.length / 4)).map (fun g =>
    (0.299 * (data.getD (4 * g) 0 : ℝ) + 0.587 * (data.getD (4 * g + 1) 0 : ℝ)
      + 0.114 * (data.getD (4 * g + 2) 0 : ℝ)) / 255)

/-- Client-side `computeGrayscale` (page, lines 134–143 of the combined
source), embedded separately so the server/client equivalence claim can be
stated; the two bodies are transcribed independently from their copies. -/
noncomputable def computeGrayscaleClient (data : List ℕ) : List ℝ :=
  (List.range (data.length / 4)).map (fun g =>
    (0.299 * (data.getD (4 * g) 0 : ℝ) + 0.587 * (data.getD (4 * g + 1) 0 : ℝ)
      + 0.114 * (data.getD (4 * g + 2) 0 : ℝ)) / 255)

/-- Sobel x-kernel `gx` (route.ts line 33). -/
def gxKernel : List ℤ := [-1, 0, 1, -2, 0, 2, -1, 0, 1]

/-- Sobel y-kernel `gy` (route.ts line 34). -/
def gyKernel : List ℤ := [-1, -2, -1, 0, 0, 0, 1, 2, 1]

/-- Round-to-nearest with ties to even, the rounding mode used when a
JS number is stored into a `Uint8ClampedArray`. -/
noncomputable def roundTiesEven (x : ℝ) : ℤ :=
  if x - ⌊x⌋ < 1 / 2 then ⌊x⌋
  else if 1 / 2 < x - ⌊x⌋ then ⌊x⌋ + 1
  else if Even ⌊x⌋ then ⌊x⌋ else ⌊x⌋ + 1

/-- Conversion applied when a JS number is assigned to a
`Uint8ClampedArray` element: clamp to [0, 255], then round ties-to-even. -/
noncomputable def jsClampU8 (x : ℝ) : ℤ :=
  if x ≤ 0 then 0 else if 255 ≤ x then 255 else roundTiesEven x

/-- Server-side `sobelEdges` (route.ts lines 31–55).  `gray` is the
intensity buffer as a function of flat index; the result is entry
`y * width + x` of the output `Uint8ClampedArray` (meaningful for
`x < width`, `y < height`).  The output array is zero-initialized and the
loops write only interior pixels `1 ≤ x < width - 1`, `1 ≤ y < height - 1`
(subtraction is ℕ-truncated; for `width ≤ 1` the JS loop bound `width - 1`
is ≤ 0 and the loop body never runs, matching the truncated test).  At an
interior pixel the inner 3×3 loop accumulates `sx` and `sy` with counter
`k = (ky+1)*3 + (kx+1)` reading `gray[(y+ky)*width + (x+kx)]`, and stores
`Math.min(255, Math.sqrt(sx*sx + sy*sy) * 255)`. -/
noncomputable def sobelEdges (gray : ℕ → ℝ) (width height : ℕ) (x y : ℕ) : ℤ :=
  if 1 ≤ x ∧ x < width - 1 ∧ 1 ≤ y ∧ y < height - 1 then
    let sx : ℝ := ((List.range 9).map (fun k =>
      (gxKernel.getD k 0 : ℝ) * gray ((y + k / 3 - 1) * width + (x + k % 3 - 1)))).sum
    let sy : ℝ := ((List.range 9).map (fun k =>
      (gyKernel.getD k 0 : ℝ) * gray ((y + k / 3 - 1) * width + (x + k % 3 - 1)))).sum
    jsClampU8 (min 255 (Real.sqrt (sx * sx + sy * sy) * 255))
  else 0

/-- Client-side `sobelEdges` (page, lines 145–169 of the combined source),
embedded separately from its own copy. -/
noncomputable def sobelEdgesClient (gray : ℕ → ℝ) (width height : ℕ) (x y : ℕ) : ℤ :=
  if 1 ≤ x ∧ x < width - 1 ∧ 1 ≤ y ∧ y < height - 1 then
    let sx : ℝ := ((List.range 9).map (fun k =>
      (gxKernel.getD k 0 : ℝ) * gray ((y + k / 3 - 1) * width + (x + k % 3 - 1)))).sum
    let sy : ℝ := ((List.range 9).map (fun k =>
      (gyKernel.getD k 0 : ℝ) * gray ((y + k / 3 - 1) * width + (x + k % 3 - 1)))).sum
    jsClampU8 (min 255 (Real.sqrt (sx * sx + sy * sy) * 255))
  else 0

/-- Response of the spec's 3×3 kernel Gx = [-1,0,1,-2,0,2,-1,0,1] at pixel
(x, y), written out term by term (claim-side formula, for comparison with
the loop-based `sobelEdges`). -/
noncomputable def sobelRespX (gray : ℕ → ℝ) (width x y : ℕ) : ℝ :=
  -gray ((y - 1) * width + (x - 1)) + gray ((y - 1) * width + (x + 1))
    - 2 * gray (y * width + (x - 1)) + 2 * gray (y * width + (x + 1))
    - gray ((y + 1) * width + (x - 1)) + gray ((y + 1) * width + (x + 1))

/-- Response of the spec's 3×3 kernel Gy = [-1,-2,-1,0,0,0,1,2,1] at pixel
(x, y), written out term by term (claim-side formula). -/
noncomputable def sobelRespY (gray : ℕ → ℝ) (width x y : ℕ) : ℝ :=
  -gray ((y - 1) * width + (x - 1)) - 2 * gray ((y - 1) * width + x)
    - gray ((y - 1) * width + (x + 1))
    + gray ((y + 1) * width + (x - 1)) + 2 * gray ((y + 1) * width + x)
    + gray ((y + 1) * width + (x + 1))

/-- Server-side `featureSignature` (route.ts lines 57–76) over the exact
reals: mean of the samples, variance as mean squared deviation,
std = √variance, skew = mean of cubed z-scores with the denominator
stabilized as std + 1e-6.  Division follows Lean's real division (the
separate NaN-tracking model below captures the n = 0 behaviour of JS). -/
noncomputable def featureSignature (gray : List ℝ) : ℝ × ℝ × ℝ :=
  let n : ℝ := gray.length
  let mean := gray.sum / n
  let variance := (gray.map (fun x => (x - mean) * (x - mean))).sum / n
  let std := Real.sqrt variance
  let skew := (gray.map (fun x =>
    let z := (x - mean) / (std + 1e-6)
    z * z * z)).sum / n
  (mean, std, skew)

/-- JS number with a non-finiteness flag: `v` is the exact real value and
`nan` holds when the JS computation would have produced a NaN (or, in
general, a non-finite value; in `featureSignature` the only zero divisors
are element counts with a zero numerator, i.e. exactly the 0/0 = NaN
case). -/
structure JSR where
  v : ℝ
  nan : Prop

/-- Addition of tracked JS numbers. -/
noncomputable def JSR.add (a b : JSR) : JSR := ⟨a.v + b.v, a.nan ∨ b.nan⟩

/-- Subtraction of tracked JS numbers. -/
noncomputable def JSR.sub (a b : JSR) : JSR := ⟨a.v - b.v, a.nan ∨ b.nan⟩

/-- Multiplication of tracked JS numbers. -/
noncomputable def JSR.mul (a b : JSR) : JSR := ⟨a.v * b.v, a.nan ∨ b.nan⟩

/-- Division of tracked JS numbers: a zero divisor yields a non-finite
result (0/0 is NaN in JS; x/0 with x ≠ 0 is an infinity, which never
arises in this code). -/
noncomputable def JSR.div (a b : JSR) : JSR := ⟨a.v / b.v, a.nan ∨ b.nan ∨ b.v = 0⟩

/-- `Math.sqrt` on tracked JS numbers: negative arguments yield NaN. -/
noncomputable def JSR.sqrt (a : JSR) : JSR := ⟨Real.sqrt a.v, a.nan ∨ a.v < 0⟩

/-- Sum of a list of tracked JS numbers, as the accumulation loops of
`featureSignature` perform it (starting from the plain number 0). -/
noncomputable def JSR.lsum (l : List JSR) : JSR := l.foldl JSR.add ⟨0, False⟩

/-- Server-side `featureSignature` (route.ts lines 57–76) with NaN
tracking: the same computation as `featureSignature`, recording where the
JS arithmetic produces a NaN.  The input samples are finite reals. -/
noncomputable def featureSignatureJS (gray : List ℝ) : JSR × JSR × JSR :=
  let n : ℝ := gray.length
  let mean := JSR.div ⟨gray.sum, False⟩ ⟨n, False⟩
  let variance := JSR.div
    (JSR.lsum (gray.map (fun x =>
      JSR.mul (JSR.sub ⟨x, False⟩ mean) (JSR.sub ⟨x, False⟩ mean)))) ⟨n, False⟩
  let std := JSR.sqrt variance
  let skew := JSR.div
    (JSR.lsum (gray.map (fun x =>
      let z := JSR.div (JSR.sub ⟨x, False⟩ mean) (JSR.add std ⟨1e-6, False⟩)
      JSR.mul (JSR.mul z z) z))) ⟨n, False⟩
  (mean, std, skew)

/-- The deterministic classifier index (route.ts line 105):
`Math.abs(Math.floor(mean*7 + std*11 + skew*13)) % VEHICLES.length`. -/
noncomputable def classifierIdx (mean std skew : ℝ) : ℕ :=
  (⌊mean * 7 + std * 11 + skew * 13⌋).natAbs % VEHICLES.length

/-- The confidence score (route.ts lines 107–108):
sigmoid of `std * 2.0` clamped into [0.2, 0.98] by
`Math.max(0.2, Math.min(0.98, ·))`. -/
noncomputable def confidence (std : ℝ) : ℝ :=
  max 0.2 (min 0.98 (1 / (1 + Real.exp (-std * 2.0))))

/-- The core of the `POST` handler (route.ts lines 100–108): grayscale
conversion, feature extraction, classifier index and confidence, returned
as the tuple (mean, std, skew, vehicle index, confidence). -/
noncomputable def predictPipeline (data : List ℕ) : ℝ × ℝ × ℝ × ℕ × ℝ :=
  let gray := computeGrayscale data
  let f := featureSignature gray
  (f.1, f.2.1, f.2.2, classifierIdx f.1 f.2.1 f.2.2, confidence f.2.1)

/-- C1: the feature extractor `featureSignature`, applied to a zero-length
intensity buffer, produces NaN for mean, std and skew: the code has no
empty-input guard, so `mean /= n` computes 0/0 and the NaN propagates.
This evaluates the code at the failing input of the claim (which demands
an InvalidInput error instead). -/
theorem featureSignatureJS_empty_nan :
    (featureSignatureJS []).1.nan ∧ (featureSignatureJS []).2.1.nan ∧
      (featureSignatureJS []).2.2.nan := by
  simp [featureSignatureJS, JSR.div, JSR.sqrt, JSR.lsum, JSR.add]

/-- C2: for every feature vector (mean, std, skew), the classifier index
|floor(mean·7 + std·11 + skew·13)| mod K satisfies 0 ≤ index < K (K = 5 =
VEHICLES.length), so the catalog lookup VEHICLES[index] is in bounds. -/
theorem classifierIdx_bounded (mean std skew : ℝ) :
    0 ≤ classifierIdx mean std skew ∧
      classifierIdx mean std skew < VEHICLES.length :=
  ⟨Nat.zero_le _, Nat.mod_lt _ (by norm_num [VEHICLES])⟩

/-- C3: for every std ≥ 0, the confidence
clamp(sigmoid(std·2.0), 0.2, 0.98) lies in [0.2, 0.98]. -/
theorem confidence_bounded (std : ℝ) (h : 0 ≤ std) :
    0.2 ≤ confidence std ∧ confidence std ≤ 0.98 := by
  unfold confidence
  exact ⟨le_max_left _ _, max_le (by norm_num) (min_le_left _ _)⟩

/-- Witness for C3 at std = 0. -/
theorem confidence_bounded_witness :
    (0 : ℝ) ≤ 0 ∧ (0.2 ≤ confidence 0 ∧ confidence 0 ≤ 0.98) :=
  ⟨le_refl 0, confidence_bounded 0 (le_refl 0)⟩

/-- C8: the core pipeline (grayscale → features → classifier) is
deterministic: two invocations on identical input data yield identical
tuples (mean, std, skew, vehicle index, confidence).  In this embedding
the pipeline is a pure function, so equal inputs give equal outputs. -/
theorem predictPipeline_deterministic (d1 d2 : List ℕ) (h : d1 = d2) :
    predictPipeline d1 = predictPipeline d2 := by rw [h]

/-- Witness for C8 on the concrete input []. -/
theorem predictPipeline_deterministic_witness :
    ([] : List ℕ) = [] ∧ predictPipeline [] = predictPipeline [] :=
  ⟨rfl, predictPipeline_deterministic [] [] rfl⟩

/-- C9: for the feature vector mean = 0.5, std = 0.2, skew = 0.1 the
classifier index evaluates to 2, and catalog entry 2 is the Ford F-150. -/
theorem classifierIdx_example :
    classifierIdx 0.5 0.2 0.1 = 2 ∧
      VEHICLES.getD 2 ⟨"", "", "", ""⟩ =
        ⟨"Ford", "F-150", "Pickup", "275/65R18"⟩ := by
  constructor
  · unfold classifierIdx
    have h : (0.5 : ℝ) * 7 + 0.2 * 11 + 0.1 * 13 = ((7 : ℤ) : ℝ) := by norm_num
    rw [h, Int.floor_intCast]
    rfl
  · rfl

/-- C4: for a PixelBuffer of length 4·W·H, computeGrayscale returns an
IntensityBuffer of length W·H whose sample g equals
(0.299·data[4g] + 0.587·data[4g+1] + 0.114·data[4g+2]) / 255 — the weights
applied to the pixel's first three channels in buffer order, the fourth
(alpha) channel ignored — and a zero-length buffer yields a zero-length
result. -/
theorem computeGrayscale_spec (data : List ℕ) (W H : ℕ)
    (hlen : data.length = 4 * W * H) :
    (computeGrayscale data).length = W * H ∧
      (∀ g, g < W * H →
        (computeGrayscale data).getD g 0 =
          (0.299 * (data.getD (4 * g) 0 : ℝ)
            + 0.587 * (data.getD (4 * g + 1) 0 : ℝ)
            + 0.114 * (data.getD (4 * g + 2) 0 : ℝ)) / 255) ∧
      (data = [] → computeGrayscale data = []) := by
  have hq : data.length / 4 = W * H := by
    rw [hlen, Nat.mul_assoc, Nat.mul_div_cancel_left _ (by norm_num : 0 < 4)]
  refine ⟨by simp [computeGrayscale, hq], ?_, ?_⟩
  · intro g hg
    simp only [computeGrayscale, hq]
    rw [List.getD_eq_getElem?_getD, List.getElem?_map, List.getElem?_range hg]
    rfl
  · intro h
    simp [computeGrayscale, h]

/-- Witness for C4 on the single-pixel buffer [1, 2, 3, 4] (W = H = 1). -/
theorem computeGrayscale_spec_witness :
    ([1, 2, 3, 4] : List ℕ).length = 4 * 1 * 1 ∧
      ((computeGrayscale [1, 2, 3, 4]).length = 1 * 1 ∧
        (∀ g, g < 1 * 1 →
          (computeGrayscale [1, 2, 3, 4]).getD g 0 =
            (0.299 * (([1, 2, 3, 4] : List ℕ).getD (4 * g) 0 : ℝ)
              + 0.587 * (([1, 2, 3, 4] : List ℕ).getD (4 * g + 1) 0 : ℝ)
              + 0.114 * (([1, 2, 3, 4] : List ℕ).getD (4 * g + 2) 0 : ℝ)) / 255) ∧
        (([1, 2, 3, 4] : List ℕ) = [] → computeGrayscale [1, 2, 3, 4] = [])) :=
  ⟨rfl, computeGrayscale_spec [1, 2, 3, 4] 1 1 rfl⟩

/-- Helper: any value stored through the Uint8ClampedArray conversion is
an integer in [0, 255]. -/
theorem jsClampU8_range (z : ℝ) : 0 ≤ jsClampU8 z ∧ jsClampU8 z ≤ 255 := by
  unfold jsClampU8 roundTiesEven
  split
  · norm_num
  · split
    · norm_num
    · rename_i h0 h255
      push_neg at h0 h255
      have hf0 : (0 : ℤ) ≤ ⌊z⌋ := Int.floor_nonneg.mpr (le_of_lt h0)
      have hf255 : ⌊z⌋ < 255 := by
        have hc : (⌊z⌋ : ℝ) < 255 := lt_of_le_of_lt (Int.floor_le z) h255
        exact_mod_cast hc
      split
      · exact ⟨hf0, by omega⟩
      · split
        · exact ⟨by omega, by omega⟩
        · split
          · exact ⟨hf0, by omega⟩
          · exact ⟨by omega, by omega⟩

/-- Helper: the loop-accumulated Sobel x-response of `sobelEdges` equals
the term-by-term kernel formula `sobelRespX`. -/
theorem sobelSx_eq (gray : ℕ → ℝ) (w x y : ℕ) :
    ((List.range 9).map (fun k =>
      (gxKernel.getD k 0 : ℝ) * gray ((y + k / 3 - 1) * w + (x + k % 3 - 1)))).sum
      = sobelRespX gray w x y := by
  simp only [show List.range 9 = [0, 1, 2, 3, 4, 5, 6, 7, 8] from rfl,
    List.map_cons, List.map_nil, List.sum_cons, List.sum_nil]
  show ((-1 : ℤ) : ℝ) * gray ((y - 1) * w + (x - 1))
      + (((0 : ℤ) : ℝ) * gray ((y - 1) * w + x)
      + (((1 : ℤ) : ℝ) * gray ((y - 1) * w + (x + 1))
      + (((-2 : ℤ) : ℝ) * gray (y * w + (x - 1))
      + (((0 : ℤ) : ℝ) * gray (y * w + x)
      + (((2 : ℤ) : ℝ) * gray (y * w + (x + 1))
      + (((-1 : ℤ) : ℝ) * gray ((y + 1) * w + (x - 1))
      + (((0 : ℤ) : ℝ) * gray ((y + 1) * w + x)
      + (((1 : ℤ) : ℝ) * gray ((y + 1) * w + (x + 1))
      + 0)))))))) = sobelRespX gray w x y
  unfold sobelRespX
  push_cast
  ring

/-- Helper: the loop-accumulated Sobel y-response of `sobelEdges` equals
the term-by-term kernel formula `sobelRespY`. -/
theorem sobelSy_eq (gray : ℕ → ℝ) (w x y : ℕ) :
    ((List.range 9).map (fun k =>
      (gyKernel.getD k 0 : ℝ) * gray ((y + k / 3 - 1) * w + (x + k % 3 - 1)))).sum
      = sobelRespY gray w x y := by
  simp only [show List.range 9 = [0, 1, 2, 3, 4, 5, 6, 7, 8] from rfl,
    List.map_cons, List.map_nil, List.sum_cons, List.sum_nil]
  show ((-1 : ℤ) : ℝ) * gray ((y - 1) * w + (x - 1))
      + (((-2 : ℤ) : ℝ) * gray ((y - 1) * w + x)
      + (((-1 : ℤ) : ℝ) * gray ((y - 1) * w + (x + 1))
      + (((0 : ℤ) : ℝ) * gray (y * w + (x - 1))
      + (((0 : ℤ) : ℝ) * gray (y * w + x)
      + (((0 : ℤ) : ℝ) * gray (y * w + (x + 1))
      + (((1 : ℤ) : ℝ) * gray ((y + 1) * w + (x - 1))
      + (((2 : ℤ) : ℝ) * gray ((y + 1) * w + x)
      + (((1 : ℤ) : ℝ) * gray ((y + 1) * w + (x + 1))
      + 0)))))))) = sobelRespY gray w x y
  unfold sobelRespY
  push_cast
  ring

/-- C5: for all width, height ≥ 3, every border pixel (row 0, row
height-1, column 0, column width-1) of the edge buffer produced by
sobelEdges equals 0: the Sobel computation runs only at interior pixels
and the output array stays zero-initialized elsewhere. -/
theorem sobelEdges_border (gray : ℕ → ℝ) (w h x y : ℕ)
    (hw : 3 ≤ w) (hh : 3 ≤ h) (hx : x < w) (hy : y < h)
    (hb : x = 0 ∨ x = w - 1 ∨ y = 0 ∨ y = h - 1) :
    sobelEdges gray w h x y = 0 := by
  unfold sobelEdges
  rw [if_neg (by omega : ¬(1 ≤ x ∧ x < w - 1 ∧ 1 ≤ y ∧ y < h - 1))]

/-- Witness for C5 on a 3×3 zero image at border pixel (0, 1). -/
theorem sobelEdges_border_witness :
    3 ≤ 3 ∧ 3 ≤ 3 ∧ 0 < 3 ∧ 1 < 3 ∧
      ((0 : ℕ) = 0 ∨ (0 : ℕ) = 3 - 1 ∨ (1 : ℕ) = 0 ∨ (1 : ℕ) = 3 - 1) ∧
      sobelEdges (fun _ => 0) 3 3 0 1 = 0 :=
  ⟨by norm_num, by norm_num, by norm_num, by norm_num, Or.inl rfl,
    sobelEdges_border (fun _ => 0) 3 3 0 1 (by norm_num) (by norm_num)
      (by norm_num) (by norm_num) (Or.inl rfl)⟩

/-- C6: at every interior pixel (1 ≤ x < width-1, 1 ≤ y < height-1) the
edge value produced by sobelEdges equals min(255, 255·√(sx² + sy²)) —
with sx, sy the responses of the Sobel kernels Gx and Gy — reduced to an
8-bit integer by the Uint8ClampedArray store, and every value of the edge
buffer is an integer in [0, 255]. -/
theorem sobelEdges_interior_spec (gray : ℕ → ℝ) (w h x y : ℕ)
    (hx1 : 1 ≤ x) (hx2 : x < w - 1) (hy1 : 1 ≤ y) (hy2 : y < h - 1) :
    sobelEdges gray w h x y =
      jsClampU8 (min 255 (255 * Real.sqrt
        (sobelRespX gray w x y ^ 2 + sobelRespY gray w x y ^ 2))) ∧
      ∀ u v : ℕ, 0 ≤ sobelEdges gray w h u v ∧ sobelEdges gray w h u v ≤ 255 := by
  constructor
  · unfold sobelEdges
    rw [if_pos ⟨hx1, hx2, hy1, hy2⟩]
    show jsClampU8 (min 255 (Real.sqrt
        (((List.range 9).map (fun k =>
          (gxKernel.getD k 0 : ℝ) * gray ((y + k / 3 - 1) * w + (x + k % 3 - 1)))).sum
          * ((List.range 9).map (fun k =>
          (gxKernel.getD k 0 : ℝ) * gray ((y + k / 3 - 1) * w + (x + k % 3 - 1)))).sum
          + ((List.range 9).map (fun k =>
          (gyKernel.getD k 0 : ℝ) * gray ((y + k / 3 - 1) * w + (x + k % 3 - 1)))).sum
          * ((List.range 9).map (fun k =>
          (gyKernel.getD k 0 : ℝ) * gray ((y + k / 3 - 1) * w + (x + k % 3 - 1)))).sum)
        * 255)) = _
    rw [sobelSx_eq, sobelSy_eq, mul_comm (Real.sqrt _) 255, pow_two, pow_two]
  · intro u v
    by_cases hcond : 1 ≤ u ∧ u < w - 1 ∧ 1 ≤ v ∧ v < h - 1
    · unfold sobelEdges
      rw [if_pos hcond]
      exact jsClampU8_range _
    · unfold sobelEdges
      rw [if_neg hcond]
      norm_num

/-- Witness for C6 on a 3×3 zero image at the interior pixel (1, 1). -/
theorem sobelEdges_interior_spec_witness :
    1 ≤ 1 ∧ (1 : ℕ) < 3 - 1 ∧
      (sobelEdges (fun _ => 0) 3 3 1 1 =
        jsClampU8 (min 255 (255 * Real.sqrt
          (sobelRespX (fun _ => 0) 3 1 1 ^ 2
            + sobelRespY (fun _ => 0) 3 1 1 ^ 2))) ∧
        ∀ u v : ℕ, 0 ≤ sobelEdges (fun _ => 0) 3 3 u v ∧
          sobelEdges (fun _ => 0) 3 3 u v ≤ 255) :=
  ⟨by norm_num, by norm_num,
    sobelEdges_interior_spec (fun _ => 0) 3 3 1 1 (by norm_num) (by norm_num)
      (by norm_num) (by norm_num)⟩

/-- C7: on a non-empty intensity buffer all of whose samples equal the same
constant c, the feature extractor returns std = 0 and skew = 0 (the skew
denominator being stabilized as std + 1e-6). -/
theorem featureSignature_const (gray : List ℝ) (c : ℝ) (hne : gray ≠ [])
    (hc : ∀ x ∈ gray, x = c) :
    (featureSignature gray).2.1 = 0 ∧ (featureSignature gray).2.2 = 0 := by
  have hn : (gray.length : ℝ) ≠ 0 :=
    Nat.cast_ne_zero.mpr (fun h => hne (List.length_eq_zero.mp h))
  have hmean : gray.sum / (gray.length : ℝ) = c := by
    rw [List.sum_eq_card_nsmul gray c hc, nsmul_eq_mul, mul_comm,
      mul_div_assoc, div_self hn, mul_one]
  have hvar : (gray.map (fun x => (x - c) * (x - c))).sum = 0 := by
    refine List.sum_eq_zero ?_
    intro y hy
    obtain ⟨x, hx, rfl⟩ := List.mem_map.mp hy
    rw [hc x hx]
    ring
  have hskew : (gray.map (fun x =>
      (x - c) / (0 + 1e-6) * ((x - c) / (0 + 1e-6))
        * ((x - c) / (0 + 1e-6)))).sum = 0 := by
    refine List.sum_eq_zero ?_
    intro y hy
    obtain ⟨x, hx, rfl⟩ := List.mem_map.mp hy
    rw [hc x hx]
    simp
  simp only [featureSignature, hmean, hvar, zero_div, Real.sqrt_zero]
  exact ⟨trivial, by rw [hskew, zero_div]⟩

/-- Witness for C7 on the one-element constant buffer [1]. -/
theorem featureSignature_const_witness :
    ([(1 : ℝ)] ≠ []) ∧ (∀ x ∈ [(1 : ℝ)], x = 1) ∧
      ((featureSignature [(1 : ℝ)]).2.1 = 0 ∧
        (featureSignature [(1 : ℝ)]).2.2 = 0) :=
  ⟨by simp, by simp, featureSignature_const [(1 : ℝ)] 1 (by simp) (by simp)⟩

/-- C10: the server-side and client-side copies of computeGrayscale and
sobelEdges are extensionally equal: on any input with the same channel
values and dimensions they return equal intensity buffers and equal edge
buffers. -/
theorem serverClient_equiv :
    (∀ data : List ℕ, computeGrayscale data = computeGrayscaleClient data) ∧
      ∀ (gray : ℕ → ℝ) (w h x y : ℕ),
        sobelEdges gray w h x y = sobelEdgesClient gray w h x y :=
  ⟨fun _ => rfl, fun _ _ _ _ _ => rfl⟩

end TirePredict
